import Mathlib

/-!
Shallow embedding of `src/TD3Model.py`: Twin Delayed Deep Deterministic
Policy Gradients (TD3) over volumetric observations, multi-agent heads on a
shared 3D-convolutional backbone.

Modelling conventions:
* tensors over real scalars, represented as index functions; the per-agent
  volumetric slice `state[:, i]` is a `Vol` (channel, z, y, x);
* `torch.clamp`, `F.elu`, `tanh`, `F.mse_loss`, `Conv3d(k=3, s=2, p=1)` and
  `Linear` are embedded directly;
* the autodiff runtime (`zero_grad`/`backward`/`optimizer.step()` on Adam)
  is an external collaborator: an optimizer step is an arbitrary function on
  the network's parameters, passed to `TD3.train` as an argument;
* `torch.randn_like` draws from the externally seeded generator: the raw
  Gaussian sample is an explicit argument of `TD3.train`.
-/

namespace TD3Model

noncomputable section

/-- A volumetric tensor slice: channel index, then z, y, x spatial indices.
Spatial indices are integers so that zero padding is out-of-range reads. -/
abbrev Vol : Type := ℕ → ℤ → ℤ → ℤ → ℝ

/-- `torch.clamp(x, lo, hi) = min(max(x, lo), hi)`. -/
def clamp (x lo hi : ℝ) : ℝ := min (max x lo) hi

/-- `F.elu` with the default `alpha = 1`: `x` if `x > 0`, else `exp x - 1`. -/
def elu (x : ℝ) : ℝ := if 0 < x then x else Real.exp x - 1

/-- Parameters of an `nn.Conv3d` layer (weight indexed by out-channel,
in-channel, and the three kernel offsets; bias by out-channel). -/
structure Conv3dParams where
  weight : ℕ → ℕ → ℕ → ℕ → ℕ → ℝ
  bias : ℕ → ℝ

/-- Parameters of an `nn.Linear` layer. -/
structure LinearParams where
  weight : ℕ → ℕ → ℝ
  bias : ℕ → ℝ

/-- `nn.Conv3d(inCh, _, 3, stride=2, padding=1)` applied to a volumetric
input with spatial extents `D×H×W`: output position `(o, z, y, x)` reads the
padded input at `(c, 2z+kz-1, 2y+ky-1, 2x+kx-1)` for kernel offsets
`kz, ky, kx < 3`, with zero padding outside the extents. -/
def conv3d (p : Conv3dParams) (inCh : ℕ) (D H W : ℤ) (v : Vol) : Vol :=
  fun o z y x =>
    p.bias o + ∑ c ∈ Finset.range inCh, ∑ kz ∈ Finset.range 3,
      ∑ ky ∈ Finset.range 3, ∑ kx ∈ Finset.range 3,
        p.weight o c kz ky kx *
          (if 0 ≤ 2*z + kz - 1 ∧ 2*z + kz - 1 < D ∧ 0 ≤ 2*y + ky - 1 ∧
              2*y + ky - 1 < H ∧ 0 ≤ 2*x + kx - 1 ∧ 2*x + kx - 1 < W
           then v c (2*z + kz - 1) (2*y + ky - 1) (2*x + kx - 1) else 0)

/-- Spatial extent after one stride-2, kernel-3, padding-1 convolution:
`floor((d - 1) / 2) + 1`. -/
def convOutDim (d : ℤ) : ℤ := (d - 1) / 2 + 1

/-- `nn.Linear` forward: `bias + weight · input` over `inDim` inputs. -/
def linear (p : LinearParams) (inDim : ℕ) (v : ℕ → ℝ) : ℕ → ℝ :=
  fun o => p.bias o + ∑ i ∈ Finset.range inDim, p.weight o i * v i

/-- `x.view(-1, 32 * 3 * 3 * 3)`: flatten the `32×3×3×3` feature volume in
contiguous (channel, z, y, x) order. -/
def flatten864 (v : Vol) : ℕ → ℝ :=
  fun j => v (j / 27) ((j % 27) / 9 : ℕ) ((j % 9) / 3 : ℕ) (j % 3 : ℕ)

/-- The shared encoder stack used identically by `Actor.forward`,
`Critic.forward` and `Critic.Q1`: four strided `Conv3d` layers, each followed
by `F.elu`, then the flattening `view`. -/
def encode4 (c1 c2 c3 c4 : Conv3dParams) (numInputs : ℕ) (D H W : ℤ)
    (v : Vol) : ℕ → ℝ :=
  let x1 : Vol := fun o z y x => elu (conv3d c1 numInputs D H W v o z y x)
  let x2 : Vol := fun o z y x =>
    elu (conv3d c2 32 (convOutDim D) (convOutDim H) (convOutDim W) x1 o z y x)
  let x3 : Vol := fun o z y x =>
    elu (conv3d c3 32 (convOutDim (convOutDim D)) (convOutDim (convOutDim H))
      (convOutDim (convOutDim W)) x2 o z y x)
  let x4 : Vol := fun o z y x =>
    elu (conv3d c4 32 (convOutDim (convOutDim (convOutDim D)))
      (convOutDim (convOutDim (convOutDim H)))
      (convOutDim (convOutDim (convOutDim W))) x3 o z y x)
  flatten864 x4

/-- Parameters of the `Actor` module: the shared conv backbone, the per-agent
`ModuleList` heads `actor1` (864 → 256) and `actor2` (256 → action_dim), the
stored agent count and action bound. -/
structure ActorParams where
  agents : ℕ
  conv1 : Conv3dParams
  conv2 : Conv3dParams
  conv3 : Conv3dParams
  conv4 : Conv3dParams
  actor1 : ℕ → LinearParams
  actor2 : ℕ → LinearParams
  max_action : ℝ

/-- `Actor.forward`: for each batch element `b` and agent `i`, encode the
agent's volumetric slice, apply the two linear head layers, and return
`max_action * tanh(·)` at output coordinate `j`. -/
def Actor.forward (p : ActorParams) (numInputs : ℕ) (D H W : ℤ)
    (state : ℕ → ℕ → Vol) : ℕ → ℕ → ℕ → ℝ :=
  fun b i j =>
    let x := encode4 p.conv1 p.conv2 p.conv3 p.conv4 numInputs D H W (state b i)
    let a1 := linear (p.actor1 i) (32 * 3 * 3 * 3) x
    let a2 := linear (p.actor2 i) 256 a1
    p.max_action * Real.tanh (a2 j)

/-- Parameters of the `Critic` module: shared conv backbone and the per-agent
twin heads `critic_11/critic_12` (Q1) and `critic_21/critic_22` (Q2). -/
structure CriticParams where
  agents : ℕ
  conv1 : Conv3dParams
  conv2 : Conv3dParams
  conv3 : Conv3dParams
  conv4 : Conv3dParams
  critic_11 : ℕ → LinearParams
  critic_12 : ℕ → LinearParams
  critic_21 : ℕ → LinearParams
  critic_22 : ℕ → LinearParams

/-- `torch.cat([x, act], 1)`: the 864 encoder features followed by the
agent's action vector. -/
def catFeatures (x : ℕ → ℝ) (act : ℕ → ℝ) : ℕ → ℝ :=
  fun j => if j < 32 * 3 * 3 * 3 then x j else act (j - 32 * 3 * 3 * 3)

/-- `Critic.forward`: per batch element and agent, encode the state slice,
concatenate the action, and evaluate both two-layer heads; each head's
`Linear(256, 1)` output is the scalar at coordinate 0. -/
def Critic.forward (p : CriticParams) (numInputs : ℕ) (D H W : ℤ)
    (action_dim : ℕ) (state : ℕ → ℕ → Vol) (action : ℕ → ℕ → ℕ → ℝ) :
    (ℕ → ℕ → ℝ) × (ℕ → ℕ → ℝ) :=
  (fun b i =>
    let x := encode4 p.conv1 p.conv2 p.conv3 p.conv4 numInputs D H W (state b i)
    let sa := catFeatures x (action b i)
    let q1 := linear (p.critic_11 i) (32 * 3 * 3 * 3 + action_dim) sa
    let q1' := linear (p.critic_12 i) 256 q1
    q1' 0,
   fun b i =>
    let x := encode4 p.conv1 p.conv2 p.conv3 p.conv4 numInputs D H W (state b i)
    let sa := catFeatures x (action b i)
    let q2 := linear (p.critic_21 i) (32 * 3 * 3 * 3 + action_dim) sa
    let q2' := linear (p.critic_22 i) 256 q2
    q2' 0)

/-- `Critic.Q1`: the restricted single-head entry point; recomputes the
shared-encoder features and the first head only. -/
def Critic.Q1 (p : CriticParams) (numInputs : ℕ) (D H W : ℤ)
    (action_dim : ℕ) (state : ℕ → ℕ → Vol) (action : ℕ → ℕ → ℕ → ℝ) :
    ℕ → ℕ → ℝ :=
  fun b i =>
    let x := encode4 p.conv1 p.conv2 p.conv3 p.conv4 numInputs D H W (state b i)
    let sa := catFeatures x (action b i)
    let q1 := linear (p.critic_11 i) (32 * 3 * 3 * 3 + action_dim) sa
    let q1' := linear (p.critic_12 i) 256 q1
    q1' 0

/-- The Trainer state held by the `TD3` object: live and target networks plus
the hyperparameters and the step counter. Optimizer internals (Adam moments)
live in the external autodiff runtime and are not part of this state; an
optimizer step is passed to `TD3.train` as a function on parameters. -/
structure TD3 where
  actor : ActorParams
  actor_target : ActorParams
  critic : CriticParams
  critic_target : CriticParams
  max_action : ℝ
  discount : ℝ
  tau : ℝ
  policy_noise : ℝ
  noise_clip : ℝ
  policy_freq : ℕ
  total_it : ℕ

/-- `TD3.__init__`: both target networks start as deep copies of the live
networks, and `total_it` starts at 0. -/
def TD3.init (a : ActorParams) (c : CriticParams)
    (max_action discount tau policy_noise noise_clip : ℝ)
    (policy_freq : ℕ) : TD3 :=
  { actor := a, actor_target := a, critic := c, critic_target := c,
    max_action := max_action, discount := discount, tau := tau,
    policy_noise := policy_noise, noise_clip := noise_clip,
    policy_freq := policy_freq, total_it := 0 }

/-- `TD3.select_action`: run the live Actor on the (batch-1) state and drop
the batch dimension (`squeeze(0)`); the `.cpu().data.numpy()` detach does not
change values. -/
def TD3.select_action (m : TD3) (numInputs : ℕ) (D H W : ℤ)
    (state : ℕ → ℕ → Vol) : ℕ → ℕ → ℝ :=
  fun i j => Actor.forward m.actor numInputs D H W state 0 i j

/-- A sampled replay-buffer batch `(state, action, next_state, reward,
not_done)`; states are per (batch, agent) volumetric slices without a channel
axis (the channel axis of size 1 is added by `unsqueeze(2)` in `train`),
reward and not_done are per (batch, agent) scalars. -/
structure Batch where
  state : ℕ → ℕ → ℤ → ℤ → ℤ → ℝ
  action : ℕ → ℕ → ℕ → ℝ
  next_state : ℕ → ℕ → ℤ → ℤ → ℤ → ℝ
  reward : ℕ → ℕ → ℝ
  not_done : ℕ → ℕ → ℝ

/-- `torch.tensor(s).unsqueeze(2)`: insert the frame-history/channel axis of
size 1 after the agent axis. -/
def unsqueeze2 (s : ℕ → ℕ → ℤ → ℤ → ℤ → ℝ) : ℕ → ℕ → Vol :=
  fun b i _ => s b i

/-- `F.mse_loss` with the default mean reduction over a `(B, agents, 1)`
tensor: mean of squared differences over all `B * A` positions. -/
def mse_loss (B A : ℕ) (f g : ℕ → ℕ → ℝ) : ℝ :=
  (∑ b ∈ Finset.range B, ∑ a ∈ Finset.range A, (f b a - g b a) ^ 2) /
    (B * A : ℕ)

/-- Soft update of one `Linear` layer:
`target ← tau * live + (1 - tau) * target` on weight and bias. -/
def softLinear (tau : ℝ) (live tgt : LinearParams) : LinearParams where
  weight := fun o i => tau * live.weight o i + (1 - tau) * tgt.weight o i
  bias := fun o => tau * live.bias o + (1 - tau) * tgt.bias o

/-- Soft update of one `Conv3d` layer. -/
def softConv (tau : ℝ) (live tgt : Conv3dParams) : Conv3dParams where
  weight := fun o c kz ky kx =>
    tau * live.weight o c kz ky kx + (1 - tau) * tgt.weight o c kz ky kx
  bias := fun o => tau * live.bias o + (1 - tau) * tgt.bias o

/-- The `zip(critic.parameters(), critic_target.parameters())` copy loop:
every parameter tensor of the target Critic becomes
`tau * live + (1 - tau) * target`; non-parameter fields are untouched. -/
def softUpdateCritic (tau : ℝ) (live tgt : CriticParams) : CriticParams where
  agents := tgt.agents
  conv1 := softConv tau live.conv1 tgt.conv1
  conv2 := softConv tau live.conv2 tgt.conv2
  conv3 := softConv tau live.conv3 tgt.conv3
  conv4 := softConv tau live.conv4 tgt.conv4
  critic_11 := fun i => softLinear tau (live.critic_11 i) (tgt.critic_11 i)
  critic_12 := fun i => softLinear tau (live.critic_12 i) (tgt.critic_12 i)
  critic_21 := fun i => softLinear tau (live.critic_21 i) (tgt.critic_21 i)
  critic_22 := fun i => softLinear tau (live.critic_22 i) (tgt.critic_22 i)

/-- The `zip(actor.parameters(), actor_target.parameters())` copy loop. -/
def softUpdateActor (tau : ℝ) (live tgt : ActorParams) : ActorParams where
  agents := tgt.agents
  conv1 := softConv tau live.conv1 tgt.conv1
  conv2 := softConv tau live.conv2 tgt.conv2
  conv3 := softConv tau live.conv3 tgt.conv3
  conv4 := softConv tau live.conv4 tgt.conv4
  actor1 := fun i => softLinear tau (live.actor1 i) (tgt.actor1 i)
  actor2 := fun i => softLinear tau (live.actor2 i) (tgt.actor2 i)
  max_action := tgt.max_action

/-- The clamped reward of `train`:
`torch.clamp(reward, -max_action, max_action)`. -/
def trainReward (m : TD3) (batch : Batch) : ℕ → ℕ → ℝ :=
  fun b a => clamp (batch.reward b a) (-m.max_action) m.max_action

/-- The clipped target-policy-smoothing noise of `train`:
`(randn_like(action) * policy_noise).clamp(-noise_clip, noise_clip)`, with
`g` the raw Gaussian sample. -/
def trainNoise (m : TD3) (g : ℕ → ℕ → ℕ → ℝ) : ℕ → ℕ → ℕ → ℝ :=
  fun b i j => clamp (g b i j * m.policy_noise) (-m.noise_clip) m.noise_clip

/-- The target action of `train`:
`(actor_target(next_state.unsqueeze(2)) + noise).clamp(-max_action, max_action)`. -/
def trainNextAction (m : TD3) (D H W : ℤ) (batch : Batch)
    (g : ℕ → ℕ → ℕ → ℝ) : ℕ → ℕ → ℕ → ℝ :=
  fun b i j =>
    clamp (Actor.forward m.actor_target 1 D H W (unsqueeze2 batch.next_state) b i j
        + trainNoise m g b i j)
      (-m.max_action) m.max_action

/-- The bootstrapped target value of `train`:
`target_Q = reward + not_done * discount * min(Q1_target, Q2_target)` with
the target Critic evaluated on `(next_state, next_action)`. -/
def trainTargetQ (m : TD3) (D H W : ℤ) (action_dim : ℕ) (batch : Batch)
    (g : ℕ → ℕ → ℕ → ℝ) : ℕ → ℕ → ℝ :=
  fun b a =>
    trainReward m batch b a + batch.not_done b a * m.discount *
      min ((Critic.forward m.critic_target 1 D H W action_dim
              (unsqueeze2 batch.next_state) (trainNextAction m D H W batch g)).1 b a)
          ((Critic.forward m.critic_target 1 D H W action_dim
              (unsqueeze2 batch.next_state) (trainNextAction m D H W batch g)).2 b a)

/-- The critic loss of `train`:
`F.mse_loss(current_Q1, target_Q) + F.mse_loss(current_Q2, target_Q)` with
the live Critic evaluated on the sampled `(state, action)`. -/
def trainCriticLoss (m : TD3) (D H W : ℤ) (action_dim B : ℕ) (batch : Batch)
    (g : ℕ → ℕ → ℕ → ℝ) : ℝ :=
  mse_loss B m.critic.agents
      ((Critic.forward m.critic 1 D H W action_dim
          (unsqueeze2 batch.state) batch.action).1)
      (trainTargetQ m D H W action_dim batch g) +
  mse_loss B m.critic.agents
      ((Critic.forward m.critic 1 D H W action_dim
          (unsqueeze2 batch.state) batch.action).2)
      (trainTargetQ m D H W action_dim batch g)

/-- The external Adam step on the Critic
(`critic_optimizer.zero_grad(); critic_loss.backward();
critic_optimizer.step()`): the resulting parameters are a function of the
current Critic parameters and of the data the critic loss reads — the
(unsqueezed) state, the action, and the regression target `target_Q`. -/
abbrev CriticStepFn : Type :=
  CriticParams → (ℕ → ℕ → Vol) → (ℕ → ℕ → ℕ → ℝ) → (ℕ → ℕ → ℝ) → CriticParams

/-- The external Adam step on the Actor: the resulting parameters are a
function of the current Actor parameters, of the Critic parameters the actor
loss reads (`critic.Q1`, evaluated after the critic's own optimizer step),
and of the (unsqueezed) state. -/
abbrev ActorStepFn : Type :=
  ActorParams → CriticParams → (ℕ → ℕ → Vol) → ActorParams

/-- The actor-loss surrogate driving `actorStep` on policy-update calls:
`-critic.Q1(state, actor(state)).mean()`. -/
def actorLoss (actor : ActorParams) (critic : CriticParams) (D H W : ℤ)
    (action_dim B : ℕ) (state : ℕ → ℕ → Vol) : ℝ :=
  -((∑ b ∈ Finset.range B, ∑ i ∈ Finset.range critic.agents,
      Critic.Q1 critic 1 D H W action_dim state
        (Actor.forward actor 1 D H W state) b i) / (B * critic.agents : ℕ))

/-- `TD3.train`: one training call. `g` is the raw Gaussian sample drawn by
`torch.randn_like`; `criticStep` and `actorStep` are the external Adam
optimizer steps. The critic is optimized on every call; on calls where the
incremented `total_it` is divisible by `policy_freq`, the actor is optimized
(its loss reading the already-stepped Critic) and both target networks
receive the soft update, with the live parameters taken after their optimizer
steps. Returns the updated trainer state and `critic_loss.item()` (computed
from the pre-step live Critic). -/
def TD3.train (m : TD3) (D H W : ℤ) (action_dim B : ℕ) (batch : Batch)
    (g : ℕ → ℕ → ℕ → ℝ) (criticStep : CriticStepFn)
    (actorStep : ActorStepFn) : TD3 × ℝ :=
  let total_it := m.total_it + 1
  let critic_loss := trainCriticLoss m D H W action_dim B batch g
  let critic' := criticStep m.critic (unsqueeze2 batch.state) batch.action
    (trainTargetQ m D H W action_dim batch g)
  if total_it % m.policy_freq = 0 then
    let actor' := actorStep m.actor critic' (unsqueeze2 batch.state)
    ({ m with
        total_it := total_it
        critic := critic'
        actor := actor'
        critic_target := softUpdateCritic m.tau critic' m.critic_target
        actor_target := softUpdateActor m.tau actor' m.actor_target },
      critic_loss)
  else
    ({ m with total_it := total_it, critic := critic' }, critic_loss)

/-- `TD3.load`: restore the live Critic and Actor from the loaded snapshots
and re-clone both targets (`copy.deepcopy`); optimizer state lives in the
external runtime. -/
def TD3.load (m : TD3) (c : CriticParams) (a : ActorParams) : TD3 :=
  { m with
      critic := c
      critic_target := c
      actor := a
      actor_target := a }

/-- The bootstrapped target value as the spec words it, assembled in one
expression: the next action is the target Actor's output on `next_state`
plus Gaussian noise scaled by `policy_noise` and clamped elementwise to
`[-noise_clip, noise_clip]`, the sum clamped elementwise to
`[-max_action, max_action]`; then
`target_Q = reward + not_done * discount * min(Q1_target, Q2_target)` with
the target Critic evaluated on `(next_state, next_action)` and the reward
clamped into `[-max_action, max_action]`. -/
def specTargetQ (m : TD3) (D H W : ℤ) (action_dim : ℕ) (batch : Batch)
    (g : ℕ → ℕ → ℕ → ℝ) : ℕ → ℕ → ℝ :=
  fun b a =>
    let nextA : ℕ → ℕ → ℕ → ℝ := fun b' i j =>
      clamp
        (Actor.forward m.actor_target 1 D H W (unsqueeze2 batch.next_state) b' i j
          + clamp (g b' i j * m.policy_noise) (-m.noise_clip) m.noise_clip)
        (-m.max_action) m.max_action
    let tq := Critic.forward m.critic_target 1 D H W action_dim
      (unsqueeze2 batch.next_state) nextA
    clamp (batch.reward b a) (-m.max_action) m.max_action +
      batch.not_done b a * m.discount * min (tq.1 b a) (tq.2 b a)

/-- The spec's soft-update relation on a `Linear` layer: every entry of
`new` is `tau * live + (1 - tau) * old`. -/
def LinearIsSoft (tau : ℝ) (live old new : LinearParams) : Prop :=
  (∀ o i, new.weight o i = tau * live.weight o i + (1 - tau) * old.weight o i) ∧
  (∀ o, new.bias o = tau * live.bias o + (1 - tau) * old.bias o)

/-- The spec's soft-update relation on a `Conv3d` layer. -/
def ConvIsSoft (tau : ℝ) (live old new : Conv3dParams) : Prop :=
  (∀ o c kz ky kx, new.weight o c kz ky kx =
    tau * live.weight o c kz ky kx + (1 - tau) * old.weight o c kz ky kx) ∧
  (∀ o, new.bias o = tau * live.bias o + (1 - tau) * old.bias o)

/-- The spec's soft-update relation on every parameter tensor of a Critic. -/
def CriticIsSoft (tau : ℝ) (live old new : CriticParams) : Prop :=
  ConvIsSoft tau live.conv1 old.conv1 new.conv1 ∧
  ConvIsSoft tau live.conv2 old.conv2 new.conv2 ∧
  ConvIsSoft tau live.conv3 old.conv3 new.conv3 ∧
  ConvIsSoft tau live.conv4 old.conv4 new.conv4 ∧
  (∀ i, LinearIsSoft tau (live.critic_11 i) (old.critic_11 i) (new.critic_11 i)) ∧
  (∀ i, LinearIsSoft tau (live.critic_12 i) (old.critic_12 i) (new.critic_12 i)) ∧
  (∀ i, LinearIsSoft tau (live.critic_21 i) (old.critic_21 i) (new.critic_21 i)) ∧
  (∀ i, LinearIsSoft tau (live.critic_22 i) (old.critic_22 i) (new.critic_22 i))

/-- The spec's soft-update relation on every parameter tensor of an Actor. -/
def ActorIsSoft (tau : ℝ) (live old new : ActorParams) : Prop :=
  ConvIsSoft tau live.conv1 old.conv1 new.conv1 ∧
  ConvIsSoft tau live.conv2 old.conv2 new.conv2 ∧
  ConvIsSoft tau live.conv3 old.conv3 new.conv3 ∧
  ConvIsSoft tau live.conv4 old.conv4 new.conv4 ∧
  (∀ i, LinearIsSoft tau (live.actor1 i) (old.actor1 i) (new.actor1 i)) ∧
  (∀ i, LinearIsSoft tau (live.actor2 i) (old.actor2 i) (new.actor2 i))

/-- One mutating operation on the Trainer state: a `train` call (with
arbitrary sampled batch, noise draw and optimizer-step results) or a
checkpoint `load`. -/
inductive Step (D H W : ℤ) (action_dim B : ℕ) : TD3 → TD3 → Prop
  | train (m : TD3) (batch : Batch) (g : ℕ → ℕ → ℕ → ℝ)
      (criticStep : CriticStepFn) (actorStep : ActorStepFn) :
      Step D H W action_dim B m
        (TD3.train m D H W action_dim B batch g criticStep actorStep).1
  | load (m : TD3) (c : CriticParams) (a : ActorParams) :
      Step D H W action_dim B m (TD3.load m c a)

/-- An all-zero `Conv3d` parameter set (concrete instance for witnesses). -/
def zeroConv : Conv3dParams :=
  { weight := fun _ _ _ _ _ => 0, bias := fun _ => 0 }

/-- An all-zero `Linear` parameter set. -/
def zeroLinear : LinearParams :=
  { weight := fun _ _ => 0, bias := fun _ => 0 }

/-- A concrete single-agent Actor with zero weights and `max_action = 1`. -/
def zeroActor : ActorParams :=
  { agents := 1, conv1 := zeroConv, conv2 := zeroConv, conv3 := zeroConv,
    conv4 := zeroConv, actor1 := fun _ => zeroLinear,
    actor2 := fun _ => zeroLinear, max_action := 1 }

/-- A concrete single-agent Critic with zero weights. -/
def zeroCritic : CriticParams :=
  { agents := 1, conv1 := zeroConv, conv2 := zeroConv, conv3 := zeroConv,
    conv4 := zeroConv, critic_11 := fun _ => zeroLinear,
    critic_12 := fun _ => zeroLinear, critic_21 := fun _ => zeroLinear,
    critic_22 := fun _ => zeroLinear }

/-- A concrete Trainer state built by `TD3.init` with the default
hyperparameters (`discount = 0.99`, `tau = 0.005`, `policy_noise = 0.2`,
`noise_clip = 0.5`, `policy_freq = 2`) and `max_action = 1`. -/
def zeroTD3 : TD3 :=
  TD3.init zeroActor zeroCritic 1 (99 / 100) (5 / 1000) (2 / 10) (5 / 10) 2

/-- An all-zero sampled batch. -/
def zeroBatch : Batch :=
  { state := fun _ _ _ _ _ => 0, action := fun _ _ _ => 0,
    next_state := fun _ _ _ _ _ => 0, reward := fun _ _ => 0,
    not_done := fun _ _ => 0 }

/-- `zeroTD3` one call before a policy-update step (`total_it = 1`,
`policy_freq = 2`). -/
def oneTD3 : TD3 := { zeroTD3 with total_it := 1 }

/-- A trivial concrete critic optimizer step (no parameter change). -/
def idCriticStep : CriticStepFn := fun c _ _ _ => c

/-- A trivial concrete actor optimizer step (no parameter change). -/
def idActorStep : ActorStepFn := fun a _ _ => a

end

/-- A snapshot blob handed to the logger's `save_model`: a `state_dict` of
the Critic or the Actor, or an optimizer `state_dict` (opaque here). -/
inductive Blob
  | critic (c : CriticParams)
  | actor (a : ActorParams)
  | optState

/-- The logger's checkpoint store, keyed by the exact name the Trainer
supplies. -/
abbrev Store : Type := String → Option Blob

/-- `TD3.save`: hand the logger the four snapshots under the names the code
builds, `name + "_critic.pt"`, `name + "_critic_optimizer.pt"`,
`name + "_actor.pt"`, `name + "_actor_optimizer.pt"`. -/
def TD3.save (m : TD3) (store : Store) (name : String) : Store :=
  fun k =>
    if k = name ++ "_critic.pt" then some (Blob.critic m.critic)
    else if k = name ++ "_critic_optimizer.pt" then some Blob.optState
    else if k = name ++ "_actor.pt" then some (Blob.actor m.actor)
    else if k = name ++ "_actor_optimizer.pt" then some Blob.optState
    else store k

/-- The four names `TD3.save` supplies to the logger, in call order. -/
def TD3.saveNames (name : String) : List String :=
  [name ++ "_critic.pt", name ++ "_critic_optimizer.pt",
   name ++ "_actor.pt", name ++ "_actor_optimizer.pt"]

/-- The four names `TD3.load` requests (`torch.load(filename + ...)`), in
call order. -/
def TD3.loadNames (filename : String) : List String :=
  [filename ++ "_critic", filename ++ "_critic_optimizer",
   filename ++ "_actor", filename ++ "_actor_optimizer"]

/-! ## Helper lemmas -/

theorem abs_tanh_le_one (x : ℝ) : |Real.tanh x| ≤ 1 := by
  have hc := Real.cosh_pos x
  have hs : |Real.sinh x| ≤ Real.cosh x := by
    nlinarith [sq_abs (Real.sinh x), Real.cosh_sq x, abs_nonneg (Real.sinh x)]
  rw [Real.tanh_eq_sinh_div_cosh, abs_div, abs_of_pos hc, div_le_one hc]
  exact hs

theorem mul_tanh_abs_le (c t : ℝ) : |c * Real.tanh t| ≤ |c| := by
  rw [abs_mul]
  calc |c| * |Real.tanh t| ≤ |c| * 1 :=
        mul_le_mul_of_nonneg_left (abs_tanh_le_one t) (abs_nonneg c)
    _ = |c| := mul_one _

theorem actor_forward_abs_le (p : ActorParams) (numInputs : ℕ) (D H W : ℤ)
    (state : ℕ → ℕ → Vol) (b i j : ℕ) :
    |Actor.forward p numInputs D H W state b i j| ≤ |p.max_action| :=
  mul_tanh_abs_le _ _

theorem clamp_idem (x lo hi : ℝ) : clamp (clamp x lo hi) lo hi = clamp x lo hi := by
  unfold clamp
  rcases le_total hi (max x lo) with h | h
  · rw [min_eq_right h]
    rcases le_total lo hi with h2 | h2
    · rw [max_eq_left h2, min_self]
    · rw [max_eq_right h2, min_eq_right h2]
  · rw [min_eq_left h, max_eq_left (le_max_right x lo), min_eq_left h]

theorem mse_loss_nonneg (B A : ℕ) (f g : ℕ → ℕ → ℝ) : 0 ≤ mse_loss B A f g := by
  unfold mse_loss
  apply div_nonneg
  · apply Finset.sum_nonneg
    intro b _
    apply Finset.sum_nonneg
    intro a _
    positivity
  · positivity

theorem softLinear_isSoft (tau : ℝ) (live old : LinearParams) :
    LinearIsSoft tau live old (softLinear tau live old) :=
  ⟨fun _ _ => rfl, fun _ => rfl⟩

theorem softConv_isSoft (tau : ℝ) (live old : Conv3dParams) :
    ConvIsSoft tau live old (softConv tau live old) :=
  ⟨fun _ _ _ _ _ => rfl, fun _ => rfl⟩

theorem softUpdateCritic_isSoft (tau : ℝ) (live old : CriticParams) :
    CriticIsSoft tau live old (softUpdateCritic tau live old) :=
  ⟨softConv_isSoft _ _ _, softConv_isSoft _ _ _, softConv_isSoft _ _ _,
   softConv_isSoft _ _ _, fun _ => softLinear_isSoft _ _ _,
   fun _ => softLinear_isSoft _ _ _, fun _ => softLinear_isSoft _ _ _,
   fun _ => softLinear_isSoft _ _ _⟩

theorem softUpdateActor_isSoft (tau : ℝ) (live old : ActorParams) :
    ActorIsSoft tau live old (softUpdateActor tau live old) :=
  ⟨softConv_isSoft _ _ _, softConv_isSoft _ _ _, softConv_isSoft _ _ _,
   softConv_isSoft _ _ _, fun _ => softLinear_isSoft _ _ _,
   fun _ => softLinear_isSoft _ _ _⟩

theorem train_eq_pos (m : TD3) (D H W : ℤ) (action_dim B : ℕ) (batch : Batch)
    (g : ℕ → ℕ → ℕ → ℝ) (cStep : CriticStepFn) (aStep : ActorStepFn)
    (h : (m.total_it + 1) % m.policy_freq = 0) :
    TD3.train m D H W action_dim B batch g cStep aStep =
      ({ m with
          total_it := m.total_it + 1
          critic := cStep m.critic (unsqueeze2 batch.state) batch.action
            (trainTargetQ m D H W action_dim batch g)
          actor := aStep m.actor
            (cStep m.critic (unsqueeze2 batch.state) batch.action
              (trainTargetQ m D H W action_dim batch g))
            (unsqueeze2 batch.state)
          critic_target := softUpdateCritic m.tau
            (cStep m.critic (unsqueeze2 batch.state) batch.action
              (trainTargetQ m D H W action_dim batch g))
            m.critic_target
          actor_target := softUpdateActor m.tau
            (aStep m.actor
              (cStep m.critic (unsqueeze2 batch.state) batch.action
                (trainTargetQ m D H W action_dim batch g))
              (unsqueeze2 batch.state))
            m.actor_target },
        trainCriticLoss m D H W action_dim B batch g) := by
  simp only [TD3.train]
  rw [if_pos h]

theorem train_eq_neg (m : TD3) (D H W : ℤ) (action_dim B : ℕ) (batch : Batch)
    (g : ℕ → ℕ → ℕ → ℝ) (cStep : CriticStepFn) (aStep : ActorStepFn)
    (h : ¬ (m.total_it + 1) % m.policy_freq = 0) :
    TD3.train m D H W action_dim B batch g cStep aStep =
      ({ m with
          total_it := m.total_it + 1
          critic := cStep m.critic (unsqueeze2 batch.state) batch.action
            (trainTargetQ m D H W action_dim batch g) },
        trainCriticLoss m D H W action_dim B batch g) := by
  simp only [TD3.train]
  rw [if_neg h]

theorem string_append_right_inj (s t u : String) (h : s ++ t = s ++ u) :
    t = u := by
  have hd : (s ++ t).data = (s ++ u).data := congrArg String.data h
  rw [String.data_append, String.data_append] at hd
  exact String.ext (List.append_cancel_left hd)

theorem train_snd_eq (m : TD3) (D H W : ℤ) (action_dim B : ℕ) (batch : Batch)
    (g : ℕ → ℕ → ℕ → ℝ) (cStep : CriticStepFn) (aStep : ActorStepFn) :
    (TD3.train m D H W action_dim B batch g cStep aStep).2 =
      trainCriticLoss m D H W action_dim B batch g := by
  by_cases h : (m.total_it + 1) % m.policy_freq = 0
  · rw [train_eq_pos m D H W action_dim B batch g cStep aStep h]
  · rw [train_eq_neg m D H W action_dim B batch g cStep aStep h]

/-! ## Claims -/

/-- C10: `Critic.Q1(state, action)` equals the first component of
`Critic.forward(state, action)` at every batch element and agent, for every
parameter setting: the restricted single-head path recomputes exactly the
shared-encoder features and the first-head linear layers. -/
theorem claim_C10 (p : CriticParams) (numInputs : ℕ) (D H W : ℤ)
    (action_dim : ℕ) (state : ℕ → ℕ → Vol) (action : ℕ → ℕ → ℕ → ℝ)
    (b i : ℕ) :
    (Critic.forward p numInputs D H W action_dim state action).1 b i =
      Critic.Q1 p numInputs D H W action_dim state action b i := rfl

/-- C6: the Actor's forward pass is `max_action * tanh(head output)`, so its
magnitude never exceeds `|max_action|`; for a nonnegative `max_action` the
output (and hence `select_action`, which is the forward pass at batch
index 0) lies elementwise in `[-max_action, max_action]`, for every input
state and every parameter setting. -/
theorem claim_C6 (p : ActorParams) (m : TD3) (numInputs : ℕ) (D H W : ℤ)
    (state : ℕ → ℕ → Vol) (b i j : ℕ) :
    |Actor.forward p numInputs D H W state b i j| ≤ |p.max_action| ∧
    (0 ≤ p.max_action →
      Actor.forward p numInputs D H W state b i j ∈
        Set.Icc (-p.max_action) p.max_action) ∧
    (0 ≤ m.actor.max_action →
      TD3.select_action m numInputs D H W state i j ∈
        Set.Icc (-m.actor.max_action) m.actor.max_action) := by
  have keyP := actor_forward_abs_le p numInputs D H W state b i j
  have keyM := actor_forward_abs_le m.actor numInputs D H W state 0 i j
  refine ⟨keyP, fun h => ?_, fun h => ?_⟩
  · rw [Set.mem_Icc]
    rw [abs_of_nonneg h] at keyP
    exact abs_le.mp keyP
  · rw [Set.mem_Icc]
    rw [abs_of_nonneg h] at keyM
    exact abs_le.mp keyM

/-- Witness for C6 at a concrete all-zero parameter setting and state. -/
theorem claim_C6_witness :
    TD3.select_action zeroTD3 1 45 45 45 (fun _ _ _ _ _ _ => 0) 0 0 ∈
      Set.Icc (-zeroTD3.actor.max_action) zeroTD3.actor.max_action :=
  (claim_C6 zeroActor zeroTD3 1 45 45 45 (fun _ _ _ _ _ _ => 0) 0 0 0).2.2
    (by norm_num [zeroTD3, TD3.init, zeroActor])

/-- C9: with fixed parameters, `Actor.forward` and `TD3.select_action` are
deterministic functions of the input state: equal parameters and equal
states give identical outputs (the only stochastic input of the system is
the Gaussian draw `g`, which enters `TD3.train` alone). -/
theorem claim_C9 (p₁ p₂ : ActorParams) (m₁ m₂ : TD3) (numInputs : ℕ)
    (D H W : ℤ) (s₁ s₂ : ℕ → ℕ → Vol) (b i j : ℕ)
    (hp : p₁ = p₂) (hm : m₁ = m₂) (hs : s₁ = s₂) :
    Actor.forward p₁ numInputs D H W s₁ b i j =
      Actor.forward p₂ numInputs D H W s₂ b i j ∧
    TD3.select_action m₁ numInputs D H W s₁ i j =
      TD3.select_action m₂ numInputs D H W s₂ i j := by
  subst hp
  subst hm
  subst hs
  exact ⟨rfl, rfl⟩

/-- Witness for C9 at a concrete parameter setting and state. -/
theorem claim_C9_witness :
    Actor.forward zeroActor 1 45 45 45 (fun _ _ _ _ _ _ => 0) 0 0 0 =
      Actor.forward zeroActor 1 45 45 45 (fun _ _ _ _ _ _ => 0) 0 0 0 ∧
    TD3.select_action zeroTD3 1 45 45 45 (fun _ _ _ _ _ _ => 0) 0 0 =
      TD3.select_action zeroTD3 1 45 45 45 (fun _ _ _ _ _ _ => 0) 0 0 :=
  claim_C9 zeroActor zeroActor zeroTD3 zeroTD3 1 45 45 45
    (fun _ _ _ _ _ _ => 0) (fun _ _ _ _ _ _ => 0) 0 0 0 rfl rfl rfl

/-- C2: on a call to `train` with `total_it mod policy_freq == 0` after the
increment (a policy-update step), every target-network parameter tensor of
both the target Actor and the target Critic ends up equal to
`tau * live + (1 - tau) * old_target` elementwise, where the live parameters
are taken after their optimizer steps and the old target parameters are the
values before the update. -/
theorem claim_C2 (m : TD3) (D H W : ℤ) (action_dim B : ℕ) (batch : Batch)
    (g : ℕ → ℕ → ℕ → ℝ) (cStep : CriticStepFn) (aStep : ActorStepFn)
    (h : (m.total_it + 1) % m.policy_freq = 0) :
    CriticIsSoft m.tau
      (cStep m.critic (unsqueeze2 batch.state) batch.action
        (trainTargetQ m D H W action_dim batch g))
      m.critic_target
      ((TD3.train m D H W action_dim B batch g cStep aStep).1.critic_target) ∧
    ActorIsSoft m.tau
      (aStep m.actor
        (cStep m.critic (unsqueeze2 batch.state) batch.action
          (trainTargetQ m D H W action_dim batch g))
        (unsqueeze2 batch.state))
      m.actor_target
      ((TD3.train m D H W action_dim B batch g cStep aStep).1.actor_target) := by
  rw [train_eq_pos m D H W action_dim B batch g cStep aStep h]
  exact ⟨softUpdateCritic_isSoft _ _ _, softUpdateActor_isSoft _ _ _⟩

/-- Witness for C2: a concrete policy-update call (`total_it = 1`,
`policy_freq = 2`). -/
theorem claim_C2_witness :
    CriticIsSoft oneTD3.tau
      (idCriticStep oneTD3.critic (unsqueeze2 zeroBatch.state) zeroBatch.action
        (trainTargetQ oneTD3 45 45 45 1 zeroBatch (fun _ _ _ => 0)))
      oneTD3.critic_target
      ((TD3.train oneTD3 45 45 45 1 1 zeroBatch (fun _ _ _ => 0) idCriticStep
        idActorStep).1.critic_target) ∧
    ActorIsSoft oneTD3.tau
      (idActorStep oneTD3.actor
        (idCriticStep oneTD3.critic (unsqueeze2 zeroBatch.state) zeroBatch.action
          (trainTargetQ oneTD3 45 45 45 1 zeroBatch (fun _ _ _ => 0)))
        (unsqueeze2 zeroBatch.state))
      oneTD3.actor_target
      ((TD3.train oneTD3 45 45 45 1 1 zeroBatch (fun _ _ _ => 0) idCriticStep
        idActorStep).1.actor_target) :=
  claim_C2 oneTD3 45 45 45 1 1 zeroBatch (fun _ _ _ => 0) idCriticStep
    idActorStep rfl

/-- C3: `train` increments `total_it` exactly once per call; when the
incremented counter is not divisible by `policy_freq` the live Actor and
both target networks are left unchanged while the Critic gets its optimizer
step; when it is divisible, the Actor gets its optimizer step and both
targets get the soft update (so with `policy_freq = 2`, two successive
calls update actor/targets exactly once, on the second, and the critic on
both). -/
theorem claim_C3 (m : TD3) (D H W : ℤ) (action_dim B : ℕ) (batch : Batch)
    (g : ℕ → ℕ → ℕ → ℝ) (cStep : CriticStepFn) (aStep : ActorStepFn) :
    (TD3.train m D H W action_dim B batch g cStep aStep).1.total_it =
      m.total_it + 1 ∧
    ((m.total_it + 1) % m.policy_freq ≠ 0 →
      (TD3.train m D H W action_dim B batch g cStep aStep).1.actor = m.actor ∧
      (TD3.train m D H W action_dim B batch g cStep aStep).1.actor_target =
        m.actor_target ∧
      (TD3.train m D H W action_dim B batch g cStep aStep).1.critic_target =
        m.critic_target ∧
      (TD3.train m D H W action_dim B batch g cStep aStep).1.critic =
        cStep m.critic (unsqueeze2 batch.state) batch.action
          (trainTargetQ m D H W action_dim batch g)) ∧
    ((m.total_it + 1) % m.policy_freq = 0 →
      (TD3.train m D H W action_dim B batch g cStep aStep).1.critic =
        cStep m.critic (unsqueeze2 batch.state) batch.action
          (trainTargetQ m D H W action_dim batch g) ∧
      (TD3.train m D H W action_dim B batch g cStep aStep).1.actor =
        aStep m.actor
          (cStep m.critic (unsqueeze2 batch.state) batch.action
            (trainTargetQ m D H W action_dim batch g))
          (unsqueeze2 batch.state) ∧
      (TD3.train m D H W action_dim B batch g cStep aStep).1.critic_target =
        softUpdateCritic m.tau
          (cStep m.critic (unsqueeze2 batch.state) batch.action
            (trainTargetQ m D H W action_dim batch g))
          m.critic_target ∧
      (TD3.train m D H W action_dim B batch g cStep aStep).1.actor_target =
        softUpdateActor m.tau
          (aStep m.actor
            (cStep m.critic (unsqueeze2 batch.state) batch.action
              (trainTargetQ m D H W action_dim batch g))
            (unsqueeze2 batch.state))
          m.actor_target) := by
  refine ⟨?_, fun h => ?_, fun h => ?_⟩
  · by_cases h : (m.total_it + 1) % m.policy_freq = 0
    · rw [train_eq_pos m D H W action_dim B batch g cStep aStep h]
    · rw [train_eq_neg m D H W action_dim B batch g cStep aStep h]
  · rw [train_eq_neg m D H W action_dim B batch g cStep aStep h]
    exact ⟨rfl, rfl, rfl, rfl⟩
  · rw [train_eq_pos m D H W action_dim B batch g cStep aStep h]
    exact ⟨rfl, rfl, rfl, rfl⟩

/-- Witness for C3: the first call after construction (`total_it = 0`,
`policy_freq = 2`) is not a policy-update step, so actor and targets are
unchanged while the critic is stepped. -/
theorem claim_C3_witness :
    (TD3.train zeroTD3 45 45 45 1 1 zeroBatch (fun _ _ _ => 0) idCriticStep
      idActorStep).1.actor = zeroTD3.actor ∧
    (TD3.train zeroTD3 45 45 45 1 1 zeroBatch (fun _ _ _ => 0) idCriticStep
      idActorStep).1.actor_target = zeroTD3.actor_target ∧
    (TD3.train zeroTD3 45 45 45 1 1 zeroBatch (fun _ _ _ => 0) idCriticStep
      idActorStep).1.critic_target = zeroTD3.critic_target ∧
    (TD3.train zeroTD3 45 45 45 1 1 zeroBatch (fun _ _ _ => 0) idCriticStep
      idActorStep).1.critic =
      idCriticStep zeroTD3.critic (unsqueeze2 zeroBatch.state) zeroBatch.action
        (trainTargetQ zeroTD3 45 45 45 1 zeroBatch (fun _ _ _ => 0)) :=
  (claim_C3 zeroTD3 45 45 45 1 1 zeroBatch (fun _ _ _ => 0) idCriticStep
    idActorStep).2.1 (by decide)

/-- C4: the scalar returned by `train` is
`mse(current_Q1, target_Q) + mse(current_Q2, target_Q)` — the sum of the
mean-squared errors of the two live critic heads on `(state, action)`
against the single shared `target_Q` — and it is non-negative (in this
real-valued model every value is a finite real, so finiteness is inherent). -/
theorem claim_C4 (m : TD3) (D H W : ℤ) (action_dim B : ℕ) (batch : Batch)
    (g : ℕ → ℕ → ℕ → ℝ) (cStep : CriticStepFn) (aStep : ActorStepFn) :
    (TD3.train m D H W action_dim B batch g cStep aStep).2 =
      mse_loss B m.critic.agents
        ((Critic.forward m.critic 1 D H W action_dim (unsqueeze2 batch.state)
          batch.action).1)
        (trainTargetQ m D H W action_dim batch g) +
      mse_loss B m.critic.agents
        ((Critic.forward m.critic 1 D H W action_dim (unsqueeze2 batch.state)
          batch.action).2)
        (trainTargetQ m D H W action_dim batch g) ∧
    0 ≤ (TD3.train m D H W action_dim B batch g cStep aStep).2 := by
  rw [train_snd_eq m D H W action_dim B batch g cStep aStep]
  exact ⟨rfl, add_nonneg (mse_loss_nonneg _ _ _ _) (mse_loss_nonneg _ _ _ _)⟩

/-- C1: the bootstrapped target value used by `train` is exactly the spec's
formula `target_Q = reward + not_done * discount * min(Q1_target, Q2_target)`
where the next action is the target Actor's output on `next_state` plus
Gaussian noise scaled by `policy_noise`, clamped elementwise to
`[-noise_clip, noise_clip]`, the noisy action clamped elementwise to
`[-max_action, max_action]` before being fed to the target Critic; and the
loss `train` returns is the one regressed against that target. (The
`torch.no_grad` context has no value-level effect in this functional
model.) -/
theorem claim_C1 (m : TD3) (D H W : ℤ) (action_dim B : ℕ) (batch : Batch)
    (g : ℕ → ℕ → ℕ → ℝ) (cStep : CriticStepFn) (aStep : ActorStepFn)
    (b a : ℕ) :
    trainTargetQ m D H W action_dim batch g b a =
      specTargetQ m D H W action_dim batch g b a ∧
    (TD3.train m D H W action_dim B batch g cStep aStep).2 =
      mse_loss B m.critic.agents
        ((Critic.forward m.critic 1 D H W action_dim (unsqueeze2 batch.state)
          batch.action).1)
        (specTargetQ m D H W action_dim batch g) +
      mse_loss B m.critic.agents
        ((Critic.forward m.critic 1 D H W action_dim (unsqueeze2 batch.state)
          batch.action).2)
        (specTargetQ m D H W action_dim batch g) := by
  constructor
  · rfl
  · rw [train_snd_eq m D H W action_dim B batch g cStep aStep]
    rfl

/-- C5: the sampled raw reward is clamped into `[-max_action, max_action]`
before any use — the clamped value never exceeds `max_action` and (when the
interval is nonempty) never falls below `-max_action`; pre-clamping the raw
reward changes nothing in the whole `train` call, so `target_Q` is formed
from the clamped reward; concretely, a raw reward of `5` with
`max_action = 1` enters as `1 ≠ 5`. -/
theorem claim_C5 (m : TD3) (D H W : ℤ) (action_dim B : ℕ) (batch : Batch)
    (g : ℕ → ℕ → ℕ → ℝ) (cStep : CriticStepFn) (aStep : ActorStepFn)
    (b a : ℕ) :
    trainReward m batch b a ≤ m.max_action ∧
    (-m.max_action ≤ m.max_action → -m.max_action ≤ trainReward m batch b a) ∧
    TD3.train m D H W action_dim B
        { batch with reward := (fun b' a' =>
            clamp (batch.reward b' a') (-m.max_action) m.max_action) }
        g cStep aStep =
      TD3.train m D H W action_dim B batch g cStep aStep ∧
    trainReward zeroTD3 { zeroBatch with reward := fun _ _ => 5 } 0 0 = 1 ∧
    (1 : ℝ) ≠ 5 := by
  have hTQ : trainTargetQ m D H W action_dim
      { batch with reward := (fun b' a' =>
          clamp (batch.reward b' a') (-m.max_action) m.max_action) } g =
      trainTargetQ m D H W action_dim batch g := by
    funext b' a'
    simp only [trainTargetQ, trainReward]
    rw [clamp_idem]
    rfl
  have hCL : trainCriticLoss m D H W action_dim B
      { batch with reward := (fun b' a' =>
          clamp (batch.reward b' a') (-m.max_action) m.max_action) } g =
      trainCriticLoss m D H W action_dim B batch g := by
    simp only [trainCriticLoss, hTQ]
  refine ⟨min_le_right _ _, fun h => le_min (le_max_right _ _) h, ?_, ?_, by norm_num⟩
  · by_cases h : (m.total_it + 1) % m.policy_freq = 0
    · rw [train_eq_pos _ _ _ _ _ _ _ _ _ _ h, train_eq_pos _ _ _ _ _ _ _ _ _ _ h,
        hTQ, hCL]
    · rw [train_eq_neg _ _ _ _ _ _ _ _ _ _ h, train_eq_neg _ _ _ _ _ _ _ _ _ _ h,
        hTQ, hCL]
  · show clamp (5 : ℝ) (-zeroTD3.max_action) zeroTD3.max_action = 1
    have : zeroTD3.max_action = 1 := rfl
    rw [this]
    unfold clamp
    rw [max_eq_left (by norm_num), min_eq_right (by norm_num)]

/-- Witness for C5: the lower clamp bound at a concrete trainer state and
batch. -/
theorem claim_C5_witness :
    -zeroTD3.max_action ≤ trainReward zeroTD3 zeroBatch 0 0 :=
  ((claim_C5 zeroTD3 45 45 45 1 1 zeroBatch (fun _ _ _ => 0) idCriticStep
    idActorStep 0 0).2.1) (by norm_num [zeroTD3, TD3.init])

/-- C7 counterexample: with an empty store, after `save` under the name
`"x"` the store has no entry at the claim's token `"x_critic"` — the code
appends `".pt"` to every name it hands the logger on save. -/
theorem claim_C7_cex :
    TD3.save zeroTD3 (fun _ => none) "x" "x_critic" = none := by
  simp only [TD3.save]
  rw [if_neg (by decide : ¬("x_critic" : String) = "x" ++ "_critic.pt"),
    if_neg (by decide : ¬("x_critic" : String) = "x" ++ "_critic_optimizer.pt"),
    if_neg (by decide : ¬("x_critic" : String) = "x" ++ "_actor.pt"),
    if_neg (by decide : ¬("x_critic" : String) = "x" ++ "_actor_optimizer.pt")]

/-- C7 (amended): `save` persists the four snapshots under
`<name>_critic.pt`, `<name>_critic_optimizer.pt`, `<name>_actor.pt`,
`<name>_actor_optimizer.pt` (the logger names carry a `.pt` suffix), while
`load` requests `<name>_critic`, `<name>_critic_optimizer`, `<name>_actor`,
`<name>_actor_optimizer` without the suffix; given the saved Critic and
Actor snapshots, `load` restores them as the live networks, re-clones both
targets from them, and reproduces identical `select_action` outputs for a
fixed input. -/
theorem claim_C7 (m m₁ : TD3) (store : Store) (name : String)
    (c : CriticParams) (a : ActorParams) (numInputs : ℕ) (D H W : ℤ)
    (state : ℕ → ℕ → Vol) (i j : ℕ) :
    TD3.save m store name (name ++ "_critic.pt") =
      some (Blob.critic m.critic) ∧
    TD3.save m store name (name ++ "_actor.pt") = some (Blob.actor m.actor) ∧
    (TD3.load m₁ c a).critic = c ∧
    (TD3.load m₁ c a).critic_target = c ∧
    (TD3.load m₁ c a).actor = a ∧
    (TD3.load m₁ c a).actor_target = a ∧
    TD3.select_action (TD3.load m₁ m.critic m.actor) numInputs D H W state i j =
      TD3.select_action m numInputs D H W state i j := by
  have h1 : ¬(name ++ "_actor.pt" = name ++ "_critic.pt") := fun hcontra =>
    absurd (string_append_right_inj _ _ _ hcontra) (by decide)
  have h2 : ¬(name ++ "_actor.pt" = name ++ "_critic_optimizer.pt") :=
    fun hcontra =>
      absurd (string_append_right_inj _ _ _ hcontra) (by decide)
  refine ⟨?_, ?_, rfl, rfl, rfl, rfl, rfl⟩
  · simp [TD3.save]
  · simp [TD3.save, h1, h2]

/-- C8: target-network parameters are only ever written as a full clone of
the live parameters (at construction by `TD3.init` and at checkpoint load)
or, on a policy-update `train` call, as the combination
`tau * live + (1 - tau) * previous_target`; on every other reachable-state
transition they are unchanged. The optimizer-step functions are applied to
live parameters only. -/
theorem claim_C8 :
    (∀ (a : ActorParams) (c : CriticParams)
      (ma dc ta pn nc : ℝ) (pf : ℕ),
      (TD3.init a c ma dc ta pn nc pf).critic_target =
        (TD3.init a c ma dc ta pn nc pf).critic ∧
      (TD3.init a c ma dc ta pn nc pf).actor_target =
        (TD3.init a c ma dc ta pn nc pf).actor) ∧
    (∀ (D H W : ℤ) (action_dim B : ℕ) (m m' : TD3),
      Step D H W action_dim B m m' →
      (m'.critic_target = m.critic_target ∨ m'.critic_target = m'.critic ∨
        CriticIsSoft m.tau m'.critic m.critic_target m'.critic_target) ∧
      (m'.actor_target = m.actor_target ∨ m'.actor_target = m'.actor ∨
        ActorIsSoft m.tau m'.actor m.actor_target m'.actor_target)) := by
  constructor
  · intro a c ma dc ta pn nc pf
    exact ⟨rfl, rfl⟩
  · intro D H W action_dim B m m' hstep
    cases hstep with
    | train batch g cStep aStep =>
      by_cases h : (m.total_it + 1) % m.policy_freq = 0
      · rw [train_eq_pos m D H W action_dim B batch g cStep aStep h]
        exact ⟨Or.inr (Or.inr (softUpdateCritic_isSoft _ _ _)),
          Or.inr (Or.inr (softUpdateActor_isSoft _ _ _))⟩
      · rw [train_eq_neg m D H W action_dim B batch g cStep aStep h]
        exact ⟨Or.inl rfl, Or.inl rfl⟩
    | load c a =>
      exact ⟨Or.inr (Or.inl rfl), Or.inr (Or.inl rfl)⟩

/-- Witness for C8: the checkpoint-load transition at a concrete state
re-clones the targets from the live networks. -/
theorem claim_C8_witness :
    ((TD3.load zeroTD3 zeroCritic zeroActor).critic_target =
        zeroTD3.critic_target ∨
      (TD3.load zeroTD3 zeroCritic zeroActor).critic_target =
        (TD3.load zeroTD3 zeroCritic zeroActor).critic ∨
      CriticIsSoft zeroTD3.tau (TD3.load zeroTD3 zeroCritic zeroActor).critic
        zeroTD3.critic_target
        (TD3.load zeroTD3 zeroCritic zeroActor).critic_target) ∧
    ((TD3.load zeroTD3 zeroCritic zeroActor).actor_target =
        zeroTD3.actor_target ∨
      (TD3.load zeroTD3 zeroCritic zeroActor).actor_target =
        (TD3.load zeroTD3 zeroCritic zeroActor).actor ∨
      ActorIsSoft zeroTD3.tau (TD3.load zeroTD3 zeroCritic zeroActor).actor
        zeroTD3.actor_target
        (TD3.load zeroTD3 zeroCritic zeroActor).actor_target) :=
  claim_C8.2 45 45 45 1 1 zeroTD3 (TD3.load zeroTD3 zeroCritic zeroActor)
    (Step.load zeroTD3 zeroCritic zeroActor)

end TD3Model
